import Mathlib

/-!
Verification of the trace-docs repository sources against its specification.

The repository holds three source files:
* `src/scripts/setup.sh` — a bash setup script run under `set -e`;
* `src/lib/layout.shared.tsx` — `baseOptions()`, a pure constructor of the
  shared navigation/layout configuration;
* `src/app/(home)/page.tsx` — `HomePage()`, a pure renderer of static JSX.

The embedding below translates each file into Lean definitions and proves the
specification's claims about them.
-/

namespace TraceDocs

/-! ## Embedding of `src/scripts/setup.sh`

The script's behaviour depends only on a small environment: which files and
directories exist, whether `yarn` is on the PATH, and the exit codes of the
two possible installation commands.  Every observable action of the script is
an `echo`, an installation command, or a `chmod`; a run is the ordered list of
executed commands, each paired with its exit code, plus the script's own exit
status.  `set -e` is modelled by `runSetE`, which stops at the first command
returning a non-zero code and makes that code the script's exit status.
Conditions of `if` statements (`[ ! -f … ]`, `[ ! -d … ]`, `command -v yarn`)
are exempt from `set -e` in bash and are modelled as pure reads of the
environment.
-/

/-- The part of the filesystem / PATH state that `setup.sh` inspects.
`yarnCode` and `npmCode` are the exit codes `yarn install` / `npm install`
would return if invoked. -/
structure Env where
  packageJson : Bool
  traceRepo : Bool
  yarnAvailable : Bool
  yarnCode : Nat
  npmCode : Nat
  genApiDocs : Bool
  convertNotebooks : Bool
deriving DecidableEq, Repr

/-- The commands `setup.sh` can execute (beyond pure `if` conditions). -/
inductive Cmd where
  | echo (line : String)
  | yarnInstall
  | npmInstall
  | chmod (path : String)
deriving DecidableEq, Repr

/-- Which of the files named in the script exist in environment `env`. -/
def fileExists (env : Env) (p : String) : Bool :=
  if p = "package.json" then env.packageJson
  else if p = "scripts/generate_api_docs.py" then env.genApiDocs
  else if p = "scripts/convert_notebooks.py" then env.convertNotebooks
  else false

/-- Exit code of a single command in environment `env`.  `echo` always
succeeds; `chmod +x path` succeeds exactly when `path` exists (otherwise
chmod exits 1). -/
def cmdCode (env : Env) : Cmd → Nat
  | Cmd.echo _ => 0
  | Cmd.yarnInstall => env.yarnCode
  | Cmd.npmInstall => env.npmCode
  | Cmd.chmod p => if fileExists env p then 0 else 1

/-- Run a command list under `set -e`: commands execute sequentially, and the
first command exiting non-zero aborts the run with that code as the script
status.  Returns the executed commands paired with their codes, and the
status. -/
def runSetE (env : Env) : List Cmd → List (Cmd × Nat) × Nat
  | [] => ([], 0)
  | c :: cs =>
    if cmdCode env c = 0 then
      ((c, cmdCode env c) :: (runSetE env cs).1, (runSetE env cs).2)
    else ([(c, cmdCode env c)], cmdCode env c)

/-- Lines 16-20 of the script: warn when `../Trace` is absent. -/
def warnTraceCmds (env : Env) : List Cmd :=
  if env.traceRepo then []
  else
    [Cmd.echo "⚠️  Warning: Trace repository not found at ../Trace",
     Cmd.echo "   Automation scripts may not work without it.",
     Cmd.echo ""]

/-- Lines 24-28: `yarn install` when `yarn` is on the PATH, else `npm install`. -/
def installCmd (env : Env) : Cmd :=
  if env.yarnAvailable then Cmd.yarnInstall else Cmd.npmInstall

/-- Lines 38-48: the completion banner printed after the chmods succeed. -/
def completionEchoes : List Cmd :=
  [Cmd.echo "",
   Cmd.echo "✨ Setup complete!",
   Cmd.echo "",
   Cmd.echo "📋 Available commands:",
   Cmd.echo "   npm run dev                    - Start development server",
   Cmd.echo "   npm run build                  - Build for production",
   Cmd.echo "   npm run docs:generate-api      - Generate API documentation",
   Cmd.echo "   npm run docs:convert-notebooks - Convert Jupyter notebooks",
   Cmd.echo "   npm run docs:generate-all      - Run all generators",
   Cmd.echo "",
   Cmd.echo "🎉 Ready to go! Run 'npm run dev' to start."]

/-- Lines 22-48 of the script: install step, chmod step, completion banner
(everything after the precondition check except the `../Trace` warning). -/
def coreCmds (env : Env) : List Cmd :=
  [Cmd.echo "📦 Installing Node.js dependencies...",
   installCmd env,
   Cmd.echo "🔧 Making Python scripts executable...",
   Cmd.chmod "scripts/generate_api_docs.py",
   Cmd.chmod "scripts/convert_notebooks.py"] ++
  completionEchoes

/-- The script body after the `package.json` precondition check: optional
`../Trace` warning, install step, chmod step, completion banner. -/
def mainCmds (env : Env) : List Cmd :=
  warnTraceCmds env ++ coreCmds env

/-- Lines 6-7: the header echoes, executed before the precondition check. -/
def headerTrace : List (Cmd × Nat) :=
  [(Cmd.echo "🚀 Setting up Trace Documentation Site...", 0),
   (Cmd.echo "", 0)]

/-- The whole of `setup.sh`: header echoes; then `exit 1` with the error
message if `package.json` is absent; otherwise the body under `set -e`. -/
def setupScript (env : Env) : List (Cmd × Nat) × Nat :=
  if !env.packageJson then
    (headerTrace ++
      [(Cmd.echo "❌ Error: Please run this script from the trace-docs directory", 0)], 1)
  else
    (headerTrace ++ (runSetE env (mainCmds env)).1, (runSetE env (mainCmds env)).2)

/-- Commands executed by a run, without their codes. -/
def executed (env : Env) : List Cmd :=
  (setupScript env).1.map Prod.fst

/-- Exit status of a run. -/
def exitStatus (env : Env) : Nat :=
  (setupScript env).2

/-! ### Helper lemmas about `runSetE` -/

/-- When every command succeeds, `set -e` executes them all in order, each with
code 0, and the run succeeds. -/
theorem runSetE_all_ok (env : Env) (cs : List Cmd)
    (h : ∀ c ∈ cs, cmdCode env c = 0) :
    runSetE env cs = (cs.map fun c => (c, 0), 0) := by
  induction cs with
  | nil => rfl
  | cons c cs ih =>
    have hc : cmdCode env c = 0 := h c (List.mem_cons_self _ _)
    have ih' := ih fun d hd => h d (List.mem_cons_of_mem _ hd)
    simp [runSetE, hc, ih']

/-- Conversely, a run that exits 0 had every command succeed and executed all
of them. -/
theorem runSetE_ok_all (env : Env) (cs : List Cmd)
    (h : (runSetE env cs).2 = 0) :
    (∀ c ∈ cs, cmdCode env c = 0) ∧
      runSetE env cs = (cs.map fun c => (c, 0), 0) := by
  induction cs with
  | nil => exact ⟨by simp, rfl⟩
  | cons c cs ih =>
    by_cases hc : cmdCode env c = 0
    · have h' : (runSetE env cs).2 = 0 := by
        simpa [runSetE, hc] using h
      obtain ⟨h1, _⟩ := ih h'
      refine ⟨?_, ?_⟩
      · intro d hd
        rcases List.mem_cons.mp hd with rfl | hd'
        · exact hc
        · exact h1 d hd'
      · exact runSetE_all_ok env _ fun d hd => by
          rcases List.mem_cons.mp hd with rfl | hd'
          · exact hc
          · exact h1 d hd'
    · exact absurd h (by simp [runSetE, hc])

/-- The `set -e` property of a run: any executed command with a non-zero exit
code is the last executed command, and its code is the script's (non-zero)
exit status. -/
def SetEProp (tr : List (Cmd × Nat)) (st : Nat) : Prop :=
  ∀ pre p suf, tr = pre ++ p :: suf → p.2 ≠ 0 →
    suf = [] ∧ st = p.2 ∧ st ≠ 0

/-- Unfolding `runSetE` at a succeeding command. -/
theorem runSetE_cons_ok (env : Env) (c : Cmd) (cs : List Cmd)
    (hc : cmdCode env c = 0) :
    runSetE env (c :: cs) = ((c, 0) :: (runSetE env cs).1, (runSetE env cs).2) := by
  simp [runSetE, hc]

/-- Unfolding `runSetE` at a failing command. -/
theorem runSetE_cons_fail (env : Env) (c : Cmd) (cs : List Cmd)
    (hc : cmdCode env c ≠ 0) :
    runSetE env (c :: cs) = ([(c, cmdCode env c)], cmdCode env c) := by
  simp [runSetE, hc]

/-- `runSetE` satisfies the `set -e` property. -/
theorem runSetE_setE (env : Env) (cs : List Cmd) :
    SetEProp (runSetE env cs).1 (runSetE env cs).2 := by
  induction cs with
  | nil =>
    intro pre p suf htr _
    simp [runSetE] at htr
  | cons c cs ih =>
    intro pre p suf htr hp
    by_cases hc : cmdCode env c = 0
    · have heq := runSetE_cons_ok env c cs hc
      have h1 : (c, (0 : Nat)) :: (runSetE env cs).1 = pre ++ p :: suf := by
        rw [← htr, heq]
      have hst : (runSetE env (c :: cs)).2 = (runSetE env cs).2 := by rw [heq]
      cases pre with
      | nil =>
        have hpc : p = (c, 0) := ((List.cons.inj (by simpa using h1)).1).symm
        exact absurd (by simp [hpc]) hp
      | cons q pre' =>
        have h2 : (runSetE env cs).1 = pre' ++ p :: suf :=
          (List.cons.inj (by simpa using h1)).2
        have hres := ih pre' p suf h2 hp
        exact ⟨hres.1, by rw [hst]; exact hres.2.1, by rw [hst]; exact hres.2.2⟩
    · have heq := runSetE_cons_fail env c cs hc
      have h1 : [(c, cmdCode env c)] = pre ++ p :: suf := by rw [← htr, heq]
      have hst : (runSetE env (c :: cs)).2 = cmdCode env c := by rw [heq]
      cases pre with
      | nil =>
        have hpc : p = (c, cmdCode env c) := ((List.cons.inj (by simpa using h1)).1).symm
        have hsuf : suf = [] := ((List.cons.inj (by simpa using h1)).2).symm
        exact ⟨hsuf, by rw [hst, hpc], by rw [hst]; exact hc⟩
      | cons q pre' =>
        simp at h1

/-- Prepending commands that all exited 0 preserves the `set -e` property. -/
theorem SetEProp_append_zeros (t0 : List (Cmd × Nat))
    (h0 : ∀ p ∈ t0, p.2 = 0) {b : List (Cmd × Nat)} {st : Nat}
    (hb : SetEProp b st) : SetEProp (t0 ++ b) st := by
  induction t0 with
  | nil => simpa using hb
  | cons q t0' ih =>
    intro pre p suf htr hp
    match pre, htr with
    | [], htr =>
      have h1 : p = q := (List.cons.inj htr).1.symm
      exact absurd (h1 ▸ hp) (by simp [h0 q (List.mem_cons_self _ _)])
    | q' :: pre', htr =>
      have h2 : t0' ++ b = pre' ++ p :: suf := (List.cons.inj htr).2
      exact ih (fun r hr => h0 r (List.mem_cons_of_mem _ hr)) pre' p suf h2 hp

/-- The whole script satisfies the `set -e` property (in the error branch the
trace holds only zero-code echoes, so the property is vacuous there). -/
theorem setupScript_setE (env : Env) :
    SetEProp (setupScript env).1 (setupScript env).2 := by
  by_cases hpkg : env.packageJson
  · have : setupScript env =
        (headerTrace ++ (runSetE env (mainCmds env)).1,
         (runSetE env (mainCmds env)).2) := by
      simp [setupScript, hpkg]
    rw [this]
    exact SetEProp_append_zeros headerTrace (by simp [headerTrace]) (runSetE_setE env _)
  · intro pre p suf htr hp
    have hfalse : env.packageJson = false := by simpa using hpkg
    have htr' : headerTrace ++
        [(Cmd.echo "❌ Error: Please run this script from the trace-docs directory", 0)] =
        pre ++ p :: suf := by
      simpa [setupScript, hfalse] using htr
    have hmem : p ∈ headerTrace ++
        [(Cmd.echo "❌ Error: Please run this script from the trace-docs directory", 0)] := by
      rw [htr']
      exact List.mem_append_right _ (List.mem_cons_self _ _)
    have : p.2 = 0 := by
      simp [headerTrace] at hmem
      rcases hmem with h | h | h <;> simp [h]
    exact absurd this hp

/-! ### Concrete environments used as witnesses -/

/-- A working directory without `package.json`. -/
def envNoPkg : Env :=
  { packageJson := false, traceRepo := true, yarnAvailable := true,
    yarnCode := 0, npmCode := 0, genApiDocs := true, convertNotebooks := true }

/-- A fully healthy environment (yarn on PATH, everything succeeds). -/
def envAllOk : Env :=
  { packageJson := true, traceRepo := true, yarnAvailable := true,
    yarnCode := 0, npmCode := 0, genApiDocs := true, convertNotebooks := true }

/-- An environment where `yarn install` fails with exit code 2. -/
def envYarnFails : Env :=
  { packageJson := true, traceRepo := true, yarnAvailable := true,
    yarnCode := 2, npmCode := 0, genApiDocs := true, convertNotebooks := true }

/-- An environment where `scripts/generate_api_docs.py` is missing. -/
def envNoGenScript : Env :=
  { packageJson := true, traceRepo := true, yarnAvailable := true,
    yarnCode := 0, npmCode := 0, genApiDocs := false, convertNotebooks := true }

/-- An environment without the `../Trace` sibling repository. -/
def envNoTrace : Env :=
  { packageJson := true, traceRepo := false, yarnAvailable := true,
    yarnCode := 0, npmCode := 0, genApiDocs := true, convertNotebooks := true }

/-! ### Claim theorems about `setup.sh` -/

/-- C1: started without `package.json` in the working directory, the script
prints the header and the documented error message, exits with status 1, and
performs none of the later steps — every executed command is an `echo` (in
particular no `../Trace` warning, no installation, no chmod). -/
theorem setup_missing_package_json (env : Env) (h : env.packageJson = false) :
    setupScript env =
      ([(Cmd.echo "🚀 Setting up Trace Documentation Site...", 0),
        (Cmd.echo "", 0),
        (Cmd.echo "❌ Error: Please run this script from the trace-docs directory", 0)], 1) ∧
    exitStatus env = 1 ∧
    Cmd.echo "❌ Error: Please run this script from the trace-docs directory"
      ∈ executed env ∧
    (∀ c ∈ executed env, ∃ s, c = Cmd.echo s) := by
  have hs : setupScript env =
      ([(Cmd.echo "🚀 Setting up Trace Documentation Site...", 0),
        (Cmd.echo "", 0),
        (Cmd.echo "❌ Error: Please run this script from the trace-docs directory", 0)], 1) := by
    simp [setupScript, h, headerTrace]
  refine ⟨hs, ?_, ?_, ?_⟩
  · simp [exitStatus, hs]
  · simp [executed, hs]
  · intro c hc
    simp [executed, hs] at hc
    rcases hc with rfl | rfl | rfl
    · exact ⟨_, rfl⟩
    · exact ⟨_, rfl⟩
    · exact ⟨_, rfl⟩

/-- Witness for C1: the concrete environment `envNoPkg`. -/
theorem setup_missing_package_json_witness :
    exitStatus envNoPkg = 1 ∧
    Cmd.echo "❌ Error: Please run this script from the trace-docs directory"
      ∈ executed envNoPkg := by
  have h := setup_missing_package_json envNoPkg rfl
  exact ⟨h.2.1, h.2.2.1⟩

/-- C6: the script runs under `set -e` semantics — execution is a single
sequential trace, and any executed command exiting non-zero is the last
command of the trace (nothing runs after it) and its code becomes the
script's non-zero exit status. -/
theorem setup_set_e_semantics (env : Env) (pre : List (Cmd × Nat))
    (p : Cmd × Nat) (suf : List (Cmd × Nat))
    (htr : (setupScript env).1 = pre ++ p :: suf) (hfail : p.2 ≠ 0) :
    suf = [] ∧ exitStatus env = p.2 ∧ exitStatus env ≠ 0 :=
  setupScript_setE env pre p suf htr hfail

/-- Witness for C6: in `envYarnFails` the run stops at `yarn install`
(exit code 2) and the script exits with status 2. -/
theorem setup_set_e_semantics_witness :
    exitStatus envYarnFails = 2 ∧ exitStatus envYarnFails ≠ 0 := by
  have h := setup_set_e_semantics envYarnFails
      [(Cmd.echo "🚀 Setting up Trace Documentation Site...", 0),
       (Cmd.echo "", 0),
       (Cmd.echo "📦 Installing Node.js dependencies...", 0)]
      (Cmd.yarnInstall, 2) []
      (by decide) (by decide)
  exact ⟨h.2.1, h.2.2⟩

/-- Whether a command is an `echo`. -/
def isEcho : Cmd → Bool
  | Cmd.echo _ => true
  | _ => false

/-- `echo` always exits 0. -/
theorem isEcho_code (env : Env) (c : Cmd) (h : isEcho c = true) :
    cmdCode env c = 0 := by
  cases c <;> first | rfl | simp [isEcho] at h

/-- Every command of the `../Trace` warning block is an `echo`. -/
theorem warnTraceCmds_isEcho (env : Env) :
    ∀ c ∈ warnTraceCmds env, isEcho c = true := by
  intro c hc
  cases htr : env.traceRepo <;> simp [warnTraceCmds, htr] at hc
  rcases hc with rfl | rfl | rfl <;> rfl

/-- Every command of the completion banner is an `echo`. -/
theorem completionEchoes_isEcho :
    ∀ c ∈ completionEchoes, isEcho c = true := by
  decide

/-- Under the success hypotheses every command of the script body exits 0. -/
theorem mainCmds_all_ok (env : Env)
    (hinstall : cmdCode env (installCmd env) = 0)
    (hgen : env.genApiDocs = true) (hconv : env.convertNotebooks = true) :
    ∀ c ∈ mainCmds env, cmdCode env c = 0 := by
  intro c hc
  have hc' : c ∈ warnTraceCmds env ∨ c ∈ coreCmds env := by
    rw [mainCmds] at hc
    exact List.mem_append.mp hc
  rcases hc' with hw | hcore
  · exact isEcho_code env c (warnTraceCmds_isEcho env c hw)
  · have hc'' : c ∈ [Cmd.echo "📦 Installing Node.js dependencies...",
        installCmd env,
        Cmd.echo "🔧 Making Python scripts executable...",
        Cmd.chmod "scripts/generate_api_docs.py",
        Cmd.chmod "scripts/convert_notebooks.py"] ∨ c ∈ completionEchoes := by
      rw [coreCmds] at hcore
      exact List.mem_append.mp hcore
    rcases hc'' with h5 | hce
    · simp at h5
      rcases h5 with rfl | rfl | rfl | rfl | rfl
      · rfl
      · exact hinstall
      · rfl
      · simp [cmdCode, fileExists, hgen]
      · simp [cmdCode, fileExists, hconv]
    · exact isEcho_code env c (completionEchoes_isEcho c hce)

/-- C2: started with `package.json` present, the script raises no
precondition error, attempts the installation, performs both chmods, prints
the completion banner, and exits 0 (assuming every invoked command
succeeds, i.e. the chosen install command exits 0 and both helper scripts
exist so that `chmod` succeeds). -/
theorem setup_success (env : Env) (hpkg : env.packageJson = true)
    (hinstall : cmdCode env (installCmd env) = 0)
    (hgen : env.genApiDocs = true) (hconv : env.convertNotebooks = true) :
    exitStatus env = 0 ∧
    Cmd.echo "❌ Error: Please run this script from the trace-docs directory"
      ∉ executed env ∧
    installCmd env ∈ executed env ∧
    Cmd.chmod "scripts/generate_api_docs.py" ∈ executed env ∧
    Cmd.chmod "scripts/convert_notebooks.py" ∈ executed env ∧
    Cmd.echo "✨ Setup complete!" ∈ executed env := by
  have hall := mainCmds_all_ok env hinstall hgen hconv
  have hrun := runSetE_all_ok env (mainCmds env) hall
  have hexec : executed env = headerTrace.map Prod.fst ++ mainCmds env := by
    simp [executed, setupScript, hpkg, hrun, List.map_append, List.map_map,
      Function.comp_def]
  refine ⟨by simp [exitStatus, setupScript, hpkg, hrun], ?_, ?_, ?_, ?_, ?_⟩ <;>
    rw [hexec] <;>
    cases hw : env.traceRepo <;> cases hy : env.yarnAvailable <;>
      simp [mainCmds, warnTraceCmds, coreCmds, completionEchoes, headerTrace,
        installCmd, hw, hy]

/-- Witness for C2: the concrete environment `envAllOk`. -/
theorem setup_success_witness :
    exitStatus envAllOk = 0 ∧
    Cmd.echo "✨ Setup complete!" ∈ executed envAllOk := by
  have h := setup_success envAllOk rfl rfl rfl rfl
  exact ⟨h.1, h.2.2.2.2.2⟩

/-- No command's exit code depends on whether `../Trace` exists. -/
theorem cmdCode_traceRepo (env : Env) (b : Bool) (c : Cmd) :
    cmdCode { env with traceRepo := b } c = cmdCode env c := by
  cases c <;> rfl

/-- With `package.json` present the script takes the main branch. -/
theorem setupScript_pkg (env : Env) (hpkg : env.packageJson = true) :
    setupScript env =
      (headerTrace ++ (runSetE env (mainCmds env)).1,
       (runSetE env (mainCmds env)).2) := by
  simp [setupScript, hpkg]

/-- `runSetE` only reads the environment through `cmdCode`. -/
theorem runSetE_env_congr (env1 env2 : Env)
    (h : ∀ c, cmdCode env1 c = cmdCode env2 c) (cs : List Cmd) :
    runSetE env1 cs = runSetE env2 cs := by
  induction cs with
  | nil => rfl
  | cons c cs ih => simp [runSetE, h c, ih]

/-- A prefix of succeeding commands passes through `runSetE` unchanged. -/
theorem runSetE_append_zeros (env : Env) (es cs : List Cmd)
    (h : ∀ c ∈ es, cmdCode env c = 0) :
    runSetE env (es ++ cs) =
      ((es.map fun c => (c, 0)) ++ (runSetE env cs).1, (runSetE env cs).2) := by
  induction es with
  | nil => simp
  | cons e es ih =>
    have he : cmdCode env e = 0 := h e (List.mem_cons_self _ _)
    have ih' := ih fun d hd => h d (List.mem_cons_of_mem _ hd)
    simp [runSetE, he, ih']

/-- With `package.json` present, the executed commands are the header
echoes, the whole warning block, then the `set -e` run of the core body. -/
theorem executed_eq (env : Env) (hpkg : env.packageJson = true) :
    executed env = headerTrace.map Prod.fst ++ warnTraceCmds env ++
      (runSetE env (coreCmds env)).1.map Prod.fst := by
  have hwarn : ∀ c ∈ warnTraceCmds env, cmdCode env c = 0 := fun c hc =>
    isEcho_code env c (warnTraceCmds_isEcho env c hc)
  have h3 := runSetE_append_zeros env (warnTraceCmds env) (coreCmds env) hwarn
  simp [executed, setupScript, hpkg, mainCmds, h3, List.map_append,
    List.map_map, Function.comp_def]

/-- The install command always appears in the core trace (either it succeeds
and the run continues, or it is the failing last command). -/
theorem installCmd_in_core_trace (env : Env) :
    installCmd env ∈ (runSetE env (coreCmds env)).1.map Prod.fst := by
  have h0 : cmdCode env (Cmd.echo "📦 Installing Node.js dependencies...") = 0 := rfl
  rw [show coreCmds env = Cmd.echo "📦 Installing Node.js dependencies..." ::
      (installCmd env ::
        ([Cmd.echo "🔧 Making Python scripts executable...",
          Cmd.chmod "scripts/generate_api_docs.py",
          Cmd.chmod "scripts/convert_notebooks.py"] ++ completionEchoes)) from rfl]
  rw [runSetE_cons_ok env _ _ h0]
  simp only [List.map_cons, List.mem_cons]
  right
  by_cases hi : cmdCode env (installCmd env) = 0
  · rw [runSetE_cons_ok env _ _ hi]
    simp
  · rw [runSetE_cons_fail env _ _ hi]
    simp

/-- C5: the `../Trace` check is not an error path.  The exit status never
depends on whether `../Trace` exists, and when it is absent (and
`package.json` is present) the script prints the warning and still reaches
the dependency-installation step. -/
theorem trace_check_not_error_path (env : Env) :
    exitStatus { env with traceRepo := false } =
      exitStatus { env with traceRepo := true } ∧
    (env.packageJson = true →
      Cmd.echo "⚠️  Warning: Trace repository not found at ../Trace"
        ∈ executed { env with traceRepo := false } ∧
      installCmd env ∈ executed { env with traceRepo := false }) := by
  constructor
  · by_cases hpkg : env.packageJson = true
    · have hpkgF : ({ env with traceRepo := false } : Env).packageJson = true := hpkg
      have hpkgT : ({ env with traceRepo := true } : Env).packageJson = true := hpkg
      have hwF : ∀ c ∈ warnTraceCmds { env with traceRepo := false },
          cmdCode { env with traceRepo := false } c = 0 := fun c hc =>
        isEcho_code _ c (warnTraceCmds_isEcho _ c hc)
      have h3 := runSetE_append_zeros { env with traceRepo := false }
        (warnTraceCmds { env with traceRepo := false })
        (coreCmds { env with traceRepo := false }) hwF
      have hcongrF := runSetE_env_congr { env with traceRepo := false } env
        (cmdCode_traceRepo env false) (coreCmds env)
      have hcongrT := runSetE_env_congr { env with traceRepo := true } env
        (cmdCode_traceRepo env true) (coreCmds env)
      have hcoreF : coreCmds { env with traceRepo := false } = coreCmds env := rfl
      have hstF : (runSetE { env with traceRepo := false }
          (mainCmds { env with traceRepo := false })).2 =
          (runSetE env (coreCmds env)).2 := by
        rw [show mainCmds { env with traceRepo := false } =
            warnTraceCmds { env with traceRepo := false } ++
              coreCmds { env with traceRepo := false } from rfl, h3]
        rw [show ((List.map (fun c => (c, 0))
            (warnTraceCmds { env with traceRepo := false }) ++
              (runSetE { env with traceRepo := false }
                (coreCmds { env with traceRepo := false })).1,
            (runSetE { env with traceRepo := false }
              (coreCmds { env with traceRepo := false })).2)).2 =
            (runSetE { env with traceRepo := false }
              (coreCmds { env with traceRepo := false })).2 from rfl]
        rw [hcoreF, hcongrF]
      have hstT : (runSetE { env with traceRepo := true }
          (mainCmds { env with traceRepo := true })).2 =
          (runSetE env (coreCmds env)).2 := by
        rw [show mainCmds { env with traceRepo := true } = coreCmds env from rfl,
          hcongrT]
      simp only [exitStatus, setupScript_pkg _ hpkgF, setupScript_pkg _ hpkgT]
      exact hstF.trans hstT.symm
    · have hpkg' : env.packageJson = false := by
        simpa using hpkg
      simp [exitStatus, setupScript, hpkg']
  · intro hpkg
    have hexec := executed_eq { env with traceRepo := false }
      (by simpa using hpkg)
    constructor
    · rw [hexec]
      simp [warnTraceCmds]
    · rw [hexec]
      have := installCmd_in_core_trace { env with traceRepo := false }
      have hinst : installCmd { env with traceRepo := false } = installCmd env := rfl
      rw [hinst] at this
      exact List.mem_append_right _ this

/-- Witness for C5: the concrete environment `envNoTrace`. -/
theorem trace_check_not_error_path_witness :
    exitStatus { envNoTrace with traceRepo := false } =
      exitStatus { envNoTrace with traceRepo := true } ∧
    Cmd.echo "⚠️  Warning: Trace repository not found at ../Trace"
      ∈ executed { envNoTrace with traceRepo := false } := by
  have h := trace_check_not_error_path envNoTrace
  exact ⟨h.1, (h.2 rfl).1⟩

/-- Whether a command is an installation command. -/
def isInstall : Cmd → Bool
  | Cmd.yarnInstall => true
  | Cmd.npmInstall => true
  | _ => false

/-- C9: in every successful run (with `package.json` present), the script
executes exactly one installation command — `yarn install` when `yarn` is
available, `npm install` otherwise, never both and never neither. -/
theorem install_exactly_once (env : Env) (hpkg : env.packageJson = true)
    (hok : exitStatus env = 0) :
    (executed env).countP isInstall = 1 ∧
    (env.yarnAvailable = true →
      Cmd.yarnInstall ∈ executed env ∧ Cmd.npmInstall ∉ executed env) ∧
    (env.yarnAvailable = false →
      Cmd.npmInstall ∈ executed env ∧ Cmd.yarnInstall ∉ executed env) := by
  have hok' : (runSetE env (mainCmds env)).2 = 0 := by
    have := setupScript_pkg env hpkg
    simpa [exitStatus, this] using hok
  obtain ⟨-, htr⟩ := runSetE_ok_all env (mainCmds env) hok'
  have hexec : executed env = headerTrace.map Prod.fst ++ mainCmds env := by
    simp [executed, setupScript_pkg env hpkg, htr, List.map_append,
      List.map_map, Function.comp_def]
  rw [hexec]
  cases hw : env.traceRepo <;> cases hy : env.yarnAvailable <;>
    simp [mainCmds, warnTraceCmds, coreCmds, completionEchoes, installCmd,
      headerTrace, hw, hy, isInstall, List.countP_cons, List.countP_append]

/-- Witness for C9: the concrete environment `envAllOk`. -/
theorem install_exactly_once_witness :
    (executed envAllOk).countP isInstall = 1 ∧
    Cmd.yarnInstall ∈ executed envAllOk := by
  have h := install_exactly_once envAllOk rfl (by decide)
  exact ⟨h.1, (h.2.1 rfl).1⟩

/-- C10: with `package.json` present and a succeeding installation, if
either helper script is missing, the corresponding `chmod` fails under
`set -e`, so the script exits non-zero and never prints the completion
banner. -/
theorem missing_helper_script_aborts (env : Env) (hpkg : env.packageJson = true)
    (hinstall : cmdCode env (installCmd env) = 0)
    (hmiss : env.genApiDocs = false ∨ env.convertNotebooks = false) :
    exitStatus env ≠ 0 ∧
    Cmd.echo "✨ Setup complete!" ∉ executed env := by
  have hchmod : ∃ p, Cmd.chmod p ∈ mainCmds env ∧ cmdCode env (Cmd.chmod p) = 1 := by
    rcases hmiss with h | h
    · refine ⟨"scripts/generate_api_docs.py", ?_, ?_⟩
      · cases hw : env.traceRepo <;>
          simp [mainCmds, warnTraceCmds, coreCmds, completionEchoes, hw]
      · simp [cmdCode, fileExists, h]
    · refine ⟨"scripts/convert_notebooks.py", ?_, ?_⟩
      · cases hw : env.traceRepo <;>
          simp [mainCmds, warnTraceCmds, coreCmds, completionEchoes, hw]
      · simp [cmdCode, fileExists, h]
  have h1 : exitStatus env ≠ 0 := by
    intro h0
    have hok' : (runSetE env (mainCmds env)).2 = 0 := by
      simpa [exitStatus, setupScript_pkg env hpkg] using h0
    obtain ⟨hall, -⟩ := runSetE_ok_all env (mainCmds env) hok'
    obtain ⟨p, hmem, hcode⟩ := hchmod
    have hz := hall _ hmem
    rw [hcode] at hz
    exact one_ne_zero hz
  refine ⟨h1, ?_⟩
  cases hw : env.traceRepo <;> cases hy : env.yarnAvailable <;>
    cases hga : env.genApiDocs <;> cases hcv : env.convertNotebooks <;>
    simp only [hga, hcv] at hmiss <;>
    simp only [installCmd, hy, if_true, if_false, Bool.false_eq_true,
      cmdCode] at hinstall <;>
    simp [executed, setupScript, hpkg, mainCmds, warnTraceCmds, coreCmds,
      completionEchoes, installCmd, headerTrace, runSetE, cmdCode, fileExists,
      hw, hy, hga, hcv, hinstall] <;>
    simp at hmiss

/-- Witness for C10: the concrete environment `envNoGenScript`. -/
theorem missing_helper_script_aborts_witness :
    exitStatus envNoGenScript ≠ 0 ∧
    Cmd.echo "✨ Setup complete!" ∉ executed envNoGenScript := by
  exact missing_helper_script_aborts envNoGenScript rfl rfl (Or.inl rfl)

/-! ## Embedding of `src/lib/layout.shared.tsx` and `src/app/(home)/page.tsx`

JSX trees are embedded as `Html` values: a text node, or an element with a
tag name, an attribute list and children.  Uses of components (`Link`,
lucide icons such as `Sparkles`) are elements tagged with the component
name.  Both source functions are nullary and return a fixed tree, so they
are embedded as functions from `Unit`.
-/

/-- A JSX/HTML tree. -/
inductive Html where
  | text (s : String)
  | elem (tag : String) (attrs : List (String × String)) (children : List Html)

/-- One entry of the `links` array of `baseOptions`: mandatory `text` and
`url`, optional `active` matching mode and `external` flag. -/
structure LinkItem where
  text : String
  url : String
  active : Option String
  external : Option Bool
deriving DecidableEq, Repr

/-- The `nav` part of the layout options (its `title` JSX element). -/
structure NavConfig where
  title : Html

/-- The record returned by `baseOptions()` (the fields the source file
populates of fumadocs' `BaseLayoutProps`). -/
structure BaseLayoutProps where
  nav : NavConfig
  links : List LinkItem

/-- The inline `<svg>` Trace logo used in `nav.title`. -/
def traceLogoSvg : Html :=
  Html.elem "svg"
    [("width", "24"), ("height", "24"), ("viewBox", "0 0 24 24"),
     ("xmlns", "http://www.w3.org/2000/svg"), ("aria-label", "Trace Logo"),
     ("fill", "none")]
    [Html.elem "path"
       [("d", "M3 12 L9 6 L15 12 L21 6"), ("stroke", "currentColor"),
        ("strokeWidth", "2"), ("strokeLinecap", "round"),
        ("strokeLinejoin", "round")] [],
     Html.elem "path"
       [("d", "M3 18 L9 12 L15 18 L21 12"), ("stroke", "currentColor"),
        ("strokeWidth", "2"), ("strokeLinecap", "round"),
        ("strokeLinejoin", "round"), ("opacity", "0.5")] []]

/-- The `nav.title` fragment of `baseOptions()`: logo + bold "Trace2" span. -/
def navTitle : Html :=
  Html.elem "fragment" []
    [traceLogoSvg,
     Html.elem "span" [("className", "font-bold")] [Html.text "Trace2"]]

/-- `baseOptions()` from `src/lib/layout.shared.tsx`: the shared navigation
and layout configuration — the fragment title and the three navigation
links. -/
def baseOptions (_ : Unit) : BaseLayoutProps :=
  { nav := { title := navTitle },
    links :=
      [{ text := "Documentation", url := "/docs",
         active := some "nested-url", external := none },
       { text := "GitHub", url := "https://github.com/AgentOpt/OpenTrace",
         active := none, external := some true },
       { text := "Paper", url := "https://arxiv.org/abs/2406.16218",
         active := none, external := some true }] }

/-- A Quick Stats card (the four stat `<div>`s share this exact markup). -/
def statCard (value label : String) : Html :=
  Html.elem "div" [("className", "flex flex-col items-center")]
    [Html.elem "div" [("className", "text-3xl font-bold text-fd-primary")]
       [Html.text value],
     Html.elem "div" [("className", "text-sm text-fd-muted-foreground")]
       [Html.text label]]

/-- The hero section of the home page (lines 8-61 of `page.tsx`). -/
def heroSection : Html :=
  Html.elem "section"
    [("className", "flex flex-col items-center justify-center px-4 py-24 text-center bg-gradient-to-b from-fd-background to-fd-muted/20")]
    [Html.elem "div"
       [("className", "mb-6 inline-flex items-center gap-2 rounded-full border border-fd-border bg-fd-muted/50 px-4 py-2 text-sm backdrop-blur")]
       [Html.elem "Sparkles" [("className", "h-4 w-4 text-fd-primary")] [],
        Html.elem "span" [] [Html.text "AutoDiff for AI Agents"]],
     Html.elem "h1"
       [("className", "mb-6 max-w-4xl text-5xl font-extrabold tracking-tight sm:text-6xl md:text-7xl bg-gradient-to-r from-fd-foreground to-fd-muted-foreground bg-clip-text text-transparent")]
       [Html.text "End-to-end Optimization for AI Systems"],
     Html.elem "p"
       [("className", "mb-10 max-w-2xl text-lg text-fd-muted-foreground sm:text-xl")]
       [Html.text "Train AI agents with general feedback like rewards, natural language, or compiler errors. Write Python code directly and optimize it like training neural networks."],
     Html.elem "div" [("className", "flex flex-col gap-4 sm:flex-row")]
       [Html.elem "Link"
          [("href", "/docs"),
           ("className", "group inline-flex items-center gap-2 rounded-lg bg-fd-primary px-6 py-3 text-fd-primary-foreground font-semibold shadow-lg hover:bg-fd-primary/90 transition-all")]
          [Html.text "Get Started",
           Html.elem "ArrowRight"
             [("className", "h-4 w-4 transition-transform group-hover:translate-x-1")] []],
        Html.elem "Link"
          [("href", "https://github.com/AgentOpt/Trace"), ("target", "_blank"),
           ("className", "inline-flex items-center gap-2 rounded-lg border border-fd-border bg-fd-background px-6 py-3 font-semibold hover:bg-fd-muted/50 transition-all")]
          [Html.elem "Github" [("className", "h-4 w-4")] [],
           Html.text "View on GitHub"]],
     Html.elem "div" [("className", "mt-16 grid grid-cols-2 gap-8 sm:grid-cols-4")]
       [statCard "3" "Optimizers",
        statCard "PyTorch-like" "API",
        statCard "NeurIPS" "2024",
        statCard "Open" "Source"]]

/-- The Python quickstart shown in the code preview (the template literal of
lines 83-101 of `page.tsx`). -/
def pythonQuickstart : String :=
  "from opto.trace import node, bundle\nfrom opto.optimizers import OptoPrime\n\n# Define trainable function\n@bundle(trainable=True)\ndef strange_sort_list(lst):\n    '''Sort list in strange order: min, max, min, max...'''\n    return sorted(lst)\n\n# Optimize with feedback\noptimizer = OptoPrime(strange_sort_list.parameters())\n\nfor epoch in range(5):\n    output = strange_sort_list([1, 2, 3, 4])\n    feedback = check_correctness(output)\n    \n    optimizer.zero_feedback()\n    optimizer.backward(output, feedback)\n    optimizer.step()  # LLM updates the function!"

/-- The code preview section (lines 63-105 of `page.tsx`). -/
def codePreviewSection : Html :=
  Html.elem "section"
    [("className", "border-t border-fd-border bg-fd-background px-4 py-20")]
    [Html.elem "div" [("className", "mx-auto max-w-6xl")]
       [Html.elem "div" [("className", "text-center mb-12")]
          [Html.elem "h2" [("className", "text-3xl font-bold mb-4")]
             [Html.text "Familiar PyTorch-like Syntax"],
           Html.elem "p" [("className", "text-fd-muted-foreground text-lg")]
             [Html.text "Define trainable parameters and optimize them with a simple, intuitive API"]],
        Html.elem "div"
          [("className", "rounded-xl border border-fd-border bg-fd-card overflow-hidden shadow-2xl")]
          [Html.elem "div"
             [("className", "bg-fd-muted/50 px-4 py-2 border-b border-fd-border flex items-center gap-2")]
             [Html.elem "div" [("className", "flex gap-1.5")]
                [Html.elem "div" [("className", "h-3 w-3 rounded-full bg-red-500/80")] [],
                 Html.elem "div" [("className", "h-3 w-3 rounded-full bg-yellow-500/80")] [],
                 Html.elem "div" [("className", "h-3 w-3 rounded-full bg-green-500/80")] []],
              Html.elem "span" [("className", "text-xs text-fd-muted-foreground ml-2")]
                [Html.text "quickstart.py"]],
           Html.elem "pre" [("className", "p-6 overflow-x-auto text-sm leading-relaxed")]
             [Html.elem "code" [] [Html.text pythonQuickstart]]]]]

/-- A feature card (the six feature `<div>`s share this exact markup, with
their icon component, heading and body text). -/
def featureCard (icon title body : String) : Html :=
  Html.elem "div"
    [("className", "rounded-lg border border-fd-border bg-fd-card p-6 shadow-sm hover:shadow-lg transition-shadow")]
    [Html.elem "div"
       [("className", "mb-4 inline-flex h-12 w-12 items-center justify-center rounded-lg bg-fd-primary/10")]
       [Html.elem icon [("className", "h-6 w-6 text-fd-primary")] []],
     Html.elem "h3" [("className", "mb-2 text-xl font-semibold")] [Html.text title],
     Html.elem "p" [("className", "text-fd-muted-foreground")] [Html.text body]]

/-- The features section (lines 107-179 of `page.tsx`). -/
def featuresSection : Html :=
  Html.elem "section"
    [("className", "border-t border-fd-border bg-fd-muted/20 px-4 py-20")]
    [Html.elem "div" [("className", "mx-auto max-w-6xl")]
       [Html.elem "div" [("className", "text-center mb-16")]
          [Html.elem "h2" [("className", "text-3xl font-bold mb-4")]
             [Html.text "Why Trace?"],
           Html.elem "p" [("className", "text-fd-muted-foreground text-lg")]
             [Html.text "A new paradigm for training AI systems end-to-end"]],
        Html.elem "div" [("className", "grid gap-8 md:grid-cols-2 lg:grid-cols-3")]
          [featureCard "GitBranch" "Computation Graph"
             "Automatically traces execution to build a computation graph, just like autograd but for AI agents.",
           featureCard "Code2" "Write Real Code"
             "No need to wrap functions in strings. Write actual executable Python code with full IDE support.",
           featureCard "Zap" "Multiple Optimizers"
             "Choose from OptoPrime, OPRO, or TextGrad. Switch optimizers with a single line of code.",
           featureCard "BookOpen" "Rich Feedback"
             "Use any feedback: numerical rewards, natural language, compiler errors, or test results.",
           featureCard "Sparkles" "LLM Backend Agnostic"
             "Works with OpenAI, Anthropic, or any LiteLLM-supported provider. Easy API key management.",
           featureCard "Github" "Research-Backed"
             "Published at NeurIPS 2024. Battle-tested on NLP, robotics, and multi-agent tasks."]]]

/-- The call-to-action section (lines 181-210 of `page.tsx`). -/
def ctaSection : Html :=
  Html.elem "section"
    [("className", "border-t border-fd-border bg-fd-background px-4 py-20")]
    [Html.elem "div" [("className", "mx-auto max-w-4xl text-center")]
       [Html.elem "h2" [("className", "text-3xl font-bold mb-6")]
          [Html.text "Ready to optimize your AI agents?"],
        Html.elem "p" [("className", "text-fd-muted-foreground text-lg mb-8")]
          [Html.text "Install Trace and start building self-improving AI systems in minutes."],
        Html.elem "div"
          [("className", "mb-8 rounded-lg border border-fd-border bg-fd-muted/50 p-4 font-mono text-sm")]
          [Html.text "pip install trace-opt"],
        Html.elem "div" [("className", "flex flex-col gap-4 sm:flex-row sm:justify-center")]
          [Html.elem "Link"
             [("href", "/docs/getting-started"),
              ("className", "inline-flex items-center justify-center gap-2 rounded-lg bg-fd-primary px-6 py-3 text-fd-primary-foreground font-semibold hover:bg-fd-primary/90 transition-all")]
             [Html.text "Read the Docs",
              Html.elem "ArrowRight" [("className", "h-4 w-4")] []],
           Html.elem "Link"
             [("href", "/docs/tutorials"),
              ("className", "inline-flex items-center justify-center gap-2 rounded-lg border border-fd-border px-6 py-3 font-semibold hover:bg-fd-muted/50 transition-all")]
             [Html.text "View Tutorials"]]]]

/-- `HomePage()` from `src/app/(home)/page.tsx`: the whole home page tree. -/
def HomePage (_ : Unit) : Html :=
  Html.elem "main" [("className", "flex flex-1 flex-col")]
    [heroSection, codePreviewSection, featuresSection, ctaSection]

mutual

/-- All text-node strings of an `Html` tree, in document order. -/
def textNodes : Html → List String
  | Html.text s => [s]
  | Html.elem _ _ cs => textNodesList cs

/-- Text nodes of a list of sibling trees. -/
def textNodesList : List Html → List String
  | [] => []
  | c :: cs => textNodes c ++ textNodesList cs

end

/-! ### Claim theorems about the layout options and the home page -/

/-- C3: the navigation configuration returned by `baseOptions` always
contains exactly three link entries — Documentation, GitHub, Paper — and
every entry has a non-empty `text` and a non-empty `url` field. -/
theorem baseOptions_three_links (u : Unit) :
    (baseOptions u).links.length = 3 ∧
    (baseOptions u).links.map LinkItem.text = ["Documentation", "GitHub", "Paper"] ∧
    ((baseOptions u).links.all fun l => l.text != "" && l.url != "") = true := by
  obtain ⟨⟩ := u
  refine ⟨rfl, rfl, ?_⟩
  decide

/-- C7: `baseOptions` is a pure constructor of a static record: any two
calls, in any states, return identical configuration values, and the
embedding contains no operation that could produce or observe a modified
record — the configuration is a constant of the program. -/
theorem baseOptions_pure (u v : Unit) :
    baseOptions u = baseOptions v ∧ baseOptions u = baseOptions () :=
  ⟨rfl, rfl⟩

/-- C4: rendering the home page is a total function in this embedding
(hence never throws), and its output tree contains the literal strings
"Get Started" and "View on GitHub" among its text nodes. -/
theorem homePage_hero_links (u : Unit) :
    "Get Started" ∈ textNodes (HomePage u) ∧
    "View on GitHub" ∈ textNodes (HomePage u) := by
  constructor <;>
    simp [HomePage, heroSection, codePreviewSection, featuresSection,
      ctaSection, statCard, featureCard, pythonQuickstart, textNodes,
      textNodesList]

/-- C8: the home page renderer is pure and side-effect free — it takes no
input besides the unit call, reads no state, and any two renders produce
identical output. -/
theorem homePage_pure (u v : Unit) :
    HomePage u = HomePage v ∧ HomePage u = HomePage () :=
  ⟨rfl, rfl⟩

end TraceDocs
